import Mathlib

/-!
Shallow embedding of the Shopify delivery-scheduler app
(`dynamic-delivery/app/Services/DeliveryService.server.ts`,
`ShopService.server.ts`, the webhook service, the
`apps.delivery-scheduler.$args` route loader and the checkout extension
cutoff helper), together with proofs of the claimed properties.

Modelling conventions:
* The Prisma database is a record of row lists; `findFirst`/`findUnique`
  are `List.find?` (first row in insertion order), `findMany` is
  `List.filter`, `orderBy` is `List.insertionSort` (a stable sort),
  `updateMany` maps over the rows, `create` appends.
* A JS `Date` instant is `DateTime`: calendar fields plus the minute of
  the day, ordered lexicographically.  The server clock is assumed to run
  in UTC, so `getMonth`/`getDate`/`setHours` agree with their UTC
  variants; `month` is 0-based as in JS.
* Queries whose catch-blocks the specification discusses
  (`blackoutDate.findFirst`, `order.count`, the `shopSettings`
  operations) can throw: a boolean flag on `Db` injects the failure and
  the embedded function reproduces the catch-block result.  All other
  queries are modelled as succeeding.
* A Prisma `$transaction` body is a function into `Except String Db`:
  an `.error` result is a rollback (the caller keeps the old database),
  an `.ok` result is the committed database.
* `DOUBLE` money columns, JSON columns and timestamps that no claim
  touches are omitted from the row types.
-/

namespace DynamicDelivery

/-- A JS `Date` instant under a UTC server clock: calendar fields
(`month` 0-based, as `Date.getMonth`) plus the minute of the day. -/
structure DateTime where
  year : Int
  month : Nat
  day : Nat
  minute : Nat
  deriving DecidableEq, Repr

/-- Instant comparison `a <= b` (lexicographic on the calendar fields). -/
def DateTime.leB (a b : DateTime) : Bool :=
  if a.year ≠ b.year then decide (a.year < b.year)
  else if a.month ≠ b.month then decide (a.month < b.month)
  else if a.day ≠ b.day then decide (a.day < b.day)
  else decide (a.minute ≤ b.minute)

/-- Instant comparison `a < b` (lexicographic on the calendar fields). -/
def DateTime.ltB (a b : DateTime) : Bool :=
  if a.year ≠ b.year then decide (a.year < b.year)
  else if a.month ≠ b.month then decide (a.month < b.month)
  else if a.day ≠ b.day then decide (a.day < b.day)
  else decide (a.minute < b.minute)

/-- `setHours(0,0,0,0)`: midnight of the same calendar day. -/
def DateTime.startOfDay (d : DateTime) : DateTime :=
  { d with minute := 0 }

/-- `setHours(23,59,59,999)`: the last minute of the same calendar day. -/
def DateTime.endOfDay (d : DateTime) : DateTime :=
  { d with minute := 1439 }

/-- `new Date(Date.UTC(getUTCFullYear, getUTCMonth, getUTCDate))`:
midnight starting the UTC calendar day. -/
def DateTime.startOfUTCDay (d : DateTime) : DateTime :=
  { d with minute := 0 }

/-- `end.setUTCDate(end.getUTCDate() + 1)` applied to the UTC day start:
the (non-normalised) start of the next UTC calendar day. -/
def DateTime.nextUTCDayStart (d : DateTime) : DateTime :=
  { d with day := d.day + 1, minute := 0 }

/-- Specification-side predicate: two instants lie on the same calendar
day. -/
def sameCalendarDay (a b : DateTime) : Prop :=
  a.year = b.year ∧ a.month = b.month ∧ a.day = b.day

instance (a b : DateTime) : Decidable (sameCalendarDay a b) := by
  unfold sameCalendarDay; infer_instance

/-- `status` enum of the `orders` table. -/
inductive OrderStatus where
  | PENDING
  | CONFIRMED
  | CANCELLED
  | DELIVERED
  deriving DecidableEq, Repr

/-- Row of `delivery_slots`. -/
structure DeliverySlot where
  id : String
  shopName : String
  startTime : String
  endTime : String
  capacity : Int
  currentOrders : Int
  isActive : Bool
  zoneId : String
  deriving DecidableEq, Repr

/-- Row of `delivery_zones` (`shippingRate` modelled as an integer; no
claim does arithmetic on it). -/
structure DeliveryZone where
  id : String
  shopName : String
  name : String
  shippingRate : Int
  isActive : Bool
  deriving DecidableEq, Repr

/-- Row of `blackout_dates`. -/
structure BlackoutDate where
  id : String
  shopName : String
  date : DateTime
  isRecurring : Bool
  zoneId : Option String
  deriving DecidableEq, Repr

/-- Row of `orders` (columns no claim touches are omitted). -/
structure Order where
  id : String
  shopName : String
  shopifyOrderId : String
  customerEmail : String
  deliverySlotId : String
  deliveryDate : DateTime
  status : OrderStatus
  deriving DecidableEq, Repr

/-- Row of `shop_settings`. -/
structure ShopSettings where
  shopName : String
  cutoffTime : String
  maxDaysInAdvance : Int
  enableSameDayDelivery : Bool
  deriving DecidableEq, Repr

/-- The database: row lists plus failure-injection flags for the queries
whose catch-blocks the claims describe. -/
structure Db where
  slots : List DeliverySlot
  zones : List DeliveryZone
  blackouts : List BlackoutDate
  orders : List Order
  settings : List ShopSettings
  failBlackoutQuery : Bool
  failOrderCount : Bool
  failSettingsOp : Bool
  deriving DecidableEq, Repr

/-- Does the blackout row's `zoneId` match
`OR: [\x7b zoneId \x7d, \x7b zoneId: null \x7d]` for the given zone? -/
def zoneClauseMatches (rowZone : Option String) (zoneId : String) : Prop :=
  rowZone = some zoneId ∨ rowZone = none

instance (rz : Option String) (z : String) :
    Decidable (zoneClauseMatches rz z) := by
  unfold zoneClauseMatches; infer_instance

/-- `DeliveryService.getSlotBookingsForDate`: count the orders of the
slot whose `deliveryDate` lies in the UTC day window
`[start, start + 1 day)` and whose status is not `CANCELLED`; the
catch-block returns 0 when `order.count` throws. -/
def getSlotBookingsForDate (db : Db) (slotId : String) (date : DateTime) : Nat :=
  if db.failOrderCount then 0
  else
    db.orders.countP (fun o => decide (
      o.deliverySlotId = slotId ∧
      o.status ≠ OrderStatus.CANCELLED ∧
      (date.startOfUTCDay.leB o.deliveryDate ∧
       o.deliveryDate.ltB date.nextUTCDayStart)))

/-- `DeliveryService.isDateBlackedOut`: an exact-date row (any row of the
shop dated inside `[startOfDay, endOfDay]` whose zone clause matches)
blacks the date out; otherwise the first recurring row found decides by
month/day equality; the catch-block returns `false` on a thrown query. -/
def isDateBlackedOut (db : Db) (shopName : String) (date : DateTime)
    (zoneId : String) : Bool :=
  if db.failBlackoutQuery then false
  else
    match db.blackouts.find? (fun b => decide (
        b.shopName = shopName ∧
        (date.startOfDay.leB b.date ∧ b.date.leB date.endOfDay) ∧
        zoneClauseMatches b.zoneId zoneId)) with
    | some _ => true
    | none =>
      match db.blackouts.find? (fun b => decide (
          b.shopName = shopName ∧ b.isRecurring = true ∧
          zoneClauseMatches b.zoneId zoneId)) with
      | some b => decide (b.date.month = date.month ∧ b.date.day = date.day)
      | none => false

/-- `DeliveryService.getZoneByCountryCode`: first active zone of the shop
whose `name` equals the country code, else `null`. -/
def getZoneByCountryCode (db : Db) (shopName countryCode : String) :
    Option DeliveryZone :=
  db.zones.find? (fun z => decide (
    z.shopName = shopName ∧ z.name = countryCode ∧ z.isActive = true))

/-- Input of `DeliveryService.createDeliverySlot`. -/
structure CreateSlotData where
  shopName : String
  startTime : String
  endTime : String
  capacity : Int
  zoneId : String
  deriving DecidableEq, Repr

/-- VARCHAR comparison of `HH:MM` time strings: lexicographic on the
characters (`String.le_iff_toList_le` shows this is the string order). -/
def timeLE (a b : String) : Prop :=
  a.toList ≤ b.toList

/-- Strict VARCHAR comparison of `HH:MM` time strings. -/
def timeLT (a b : String) : Prop :=
  a.toList < b.toList

instance (a b : String) : Decidable (timeLE a b) := by
  unfold timeLE; infer_instance

instance (a b : String) : Decidable (timeLT a b) := by
  unfold timeLT; infer_instance

/-- The `OR` overlap clause of `createDeliverySlot`, on `HH:MM` strings
compared as the VARCHAR columns are (lexicographically). -/
def slotOverlaps (s : DeliverySlot) (data : CreateSlotData) : Prop :=
  (timeLE s.startTime data.startTime ∧ timeLT data.startTime s.endTime) ∨
  (timeLT s.startTime data.endTime ∧ timeLE data.endTime s.endTime) ∨
  (timeLE data.startTime s.startTime ∧ timeLE s.endTime data.endTime)

instance (s : DeliverySlot) (data : CreateSlotData) :
    Decidable (slotOverlaps s data) := by
  unfold slotOverlaps; infer_instance

/-- The row `db.deliverySlot.create` inserts for `createDeliverySlot`
(the database generates the id, here passed as `newId`). -/
def createdSlot (newId : String) (data : CreateSlotData) : DeliverySlot :=
  { id := newId
    shopName := data.shopName
    startTime := data.startTime
    endTime := data.endTime
    capacity := data.capacity
    currentOrders := 0
    isActive := true
    zoneId := data.zoneId }

/-- `DeliveryService.createDeliverySlot`: require an active zone of the
shop, reject when an active slot of the same shop and zone overlaps,
otherwise create the slot with `currentOrders 0` and `isActive true`. -/
def createDeliverySlot (db : Db) (newId : String) (data : CreateSlotData) :
    Except String (DeliverySlot × Db) :=
  match db.zones.find? (fun z => decide (
      z.id = data.zoneId ∧ z.shopName = data.shopName ∧ z.isActive = true)) with
  | none => .error "Invalid delivery zone for this shop"
  | some _ =>
    if (db.slots.filter (fun s => decide (
        s.shopName = data.shopName ∧ s.zoneId = data.zoneId ∧
        s.isActive = true ∧ slotOverlaps s data))).length > 0 then
      .error "Time slot overlaps with existing slot"
    else
      .ok (createdSlot newId data,
        { db with slots := db.slots ++ [createdSlot newId data] })

/-- `DeliveryService.isSlotAvailableForDate`: `false` when the slot is
missing or inactive or the date is blacked out for its zone, else
compare the booking count with the capacity. -/
def isSlotAvailableForDate (db : Db) (slotId : String) (requestedDate : DateTime) :
    Bool :=
  match db.slots.find? (fun s => decide (s.id = slotId)) with
  | none => false
  | some slot =>
    if slot.isActive = false then false
    else if isDateBlackedOut db slot.shopName requestedDate slot.zoneId then false
    else decide ((getSlotBookingsForDate db slotId requestedDate : Int) < slot.capacity)

/-- A slot annotated with its bookings, as returned by
`getAvailableSlots` (the `zone` include is dropped; no claim reads it). -/
structure SlotWithBookings where
  slot : DeliverySlot
  currentBookings : Nat
  availableCapacity : Int
  deriving DecidableEq, Repr

/-- Ordering used by `orderBy: startTime asc`. -/
def slotStartLE (a b : DeliverySlot) : Prop :=
  timeLE a.startTime b.startTime

instance : DecidableRel slotStartLE := by
  unfold slotStartLE; infer_instance

instance : IsTotal DeliverySlot slotStartLE :=
  ⟨fun a b => le_total a.startTime.toList b.startTime.toList⟩

instance : IsTrans DeliverySlot slotStartLE :=
  ⟨fun _ _ _ h h2 => le_trans h h2⟩

/-- The per-slot annotation `getAvailableSlots` computes: the booking
count and the remaining capacity for the requested date. -/
def annotateSlot (db : Db) (requestedDate : DateTime) (s : DeliverySlot) :
    SlotWithBookings :=
  { slot := s
    currentBookings := getSlotBookingsForDate db s.id requestedDate
    availableCapacity :=
      s.capacity - (getSlotBookingsForDate db s.id requestedDate : Int) }

/-- `DeliveryService.getAvailableSlots`: empty on a blacked-out date,
else the active slots of the shop and zone ordered by `startTime`,
annotated with bookings, keeping only those with spare capacity. -/
def getAvailableSlots (db : Db) (shopName : String) (requestedDate : DateTime)
    (zoneId : String) : List SlotWithBookings :=
  if isDateBlackedOut db shopName requestedDate zoneId then []
  else
    ((List.insertionSort slotStartLE
        (db.slots.filter (fun s => decide (
          s.shopName = shopName ∧ s.zoneId = zoneId ∧ s.isActive = true)))).map
      (annotateSlot db requestedDate)).filter
      (fun s => decide (0 < s.availableCapacity))

/-- `DeliveryService.releaseSlot`: `updateMany` decrementing
`currentOrders` on rows of the slot id with `currentOrders > 0`, and
`true` exactly when a row was updated. -/
def releaseSlot (db : Db) (slotId : String) : Bool × Db :=
  ( decide (0 < db.slots.countP (fun s => decide (s.id = slotId ∧ 0 < s.currentOrders))),
    { db with slots := db.slots.map (fun s =>
        if s.id = slotId ∧ 0 < s.currentOrders
        then { s with currentOrders := s.currentOrders - 1 } else s) } )

/-- `DeliveryService.releaseDeliverySlot`: look the order up by
`shopifyOrderId` (a unique column); if absent report failure, else set
its status to `CANCELLED`. -/
def releaseDeliverySlot (db : Db) (orderId : String) : Bool × Db :=
  match db.orders.find? (fun o => decide (o.shopifyOrderId = orderId)) with
  | none => (false, db)
  | some _ =>
    ( true,
      { db with orders := db.orders.map (fun o =>
          if o.shopifyOrderId = orderId
          then { o with status := OrderStatus.CANCELLED } else o) } )

/-- The order row `tx.order.create` inserts in
`WebHookService.handleOrderCreated`: status `CONFIRMED`, the requested
delivery date. -/
def confirmedOrder (newId shopName shopifyOrderId customerEmail slotId : String)
    (requestedDate : DateTime) : Order :=
  { id := newId
    shopName := shopName
    shopifyOrderId := shopifyOrderId
    customerEmail := customerEmail
    deliverySlotId := slotId
    deliveryDate := requestedDate
    status := OrderStatus.CONFIRMED }

/-- The `$transaction` body of `WebHookService.handleOrderCreated`, for
an order whose delivery selection names `slotId` and `requestedDate`:
validate the slot (exists, active, available for the date) and create
the `CONFIRMED` order row; an `.error` is a rolled-back transaction. -/
def handleOrderCreatedTx (db : Db) (shopName shopifyOrderId customerEmail : String)
    (slotId : String) (requestedDate : DateTime) (newId : String) :
    Except String Db :=
  match db.slots.find? (fun s => decide (s.id = slotId)) with
  | none => .error "Delivery slot not found"
  | some slot =>
    if slot.isActive = false then
      .error "Selected delivery slot is no longer active"
    else if isSlotAvailableForDate db slotId requestedDate = false then
      .error "Selected delivery slot is not available for the requested date"
    else
      .ok { db with orders := db.orders ++
        [confirmedOrder newId shopName shopifyOrderId customerEmail slotId
          requestedDate] }

/-- The default settings row `ShopService.getShopSettings` creates. -/
def defaultShopSettings (shopName : String) : ShopSettings :=
  { shopName := shopName
    cutoffTime := "14:00"
    maxDaysInAdvance := 30
    enableSameDayDelivery := false }

/-- `ShopService.getShopSettings`: return the unique row of the shop,
creating the default row when none exists; the catch-block returns
`null` when a database operation throws. -/
def getShopSettings (db : Db) (shopName : String) :
    Option ShopSettings × Db :=
  if db.failSettingsOp then (none, db)
  else
    match db.settings.find? (fun s => decide (s.shopName = shopName)) with
    | some s => (some s, db)
    | none =>
      let s := defaultShopSettings shopName
      (some s, { db with settings := db.settings ++ [s] })

/-- JSON responses of the `zones` endpoint of the
`apps.delivery-scheduler.$args` route. -/
inductive ZonesResponse where
  | badRequest (error : String)
  | notFound (error : String)
  | ok (id : String) (name : String) (shippingRate : Int)
  deriving DecidableEq, Repr

/-- A query parameter that is JS-falsy: absent or the empty string. -/
def paramBlank : Option String → Bool
  | none => true
  | some s => decide (s = "")

/-- `DeliveryZones.loader` of `apps.delivery-scheduler.$args`: 400 when
either parameter is falsy, 404 with the fixed message when no zone
matches, else the zone JSON. -/
def zonesLoader (db : Db) (countryCode shopName : Option String) :
    ZonesResponse :=
  if paramBlank countryCode || paramBlank shopName then
    .badRequest "Country code and shop are required"
  else
    let cc := countryCode.getD ""
    let shop := shopName.getD ""
    match getZoneByCountryCode db shop cc with
    | none => .notFound "No delivery zone found for this country"
    | some zone => .ok zone.id zone.name zone.shippingRate

/-- JS `String.prototype.split` on a one-character separator, over the
character list. -/
def splitOnChar (sep : Char) : List Char → List (List Char)
  | [] => [[]]
  | c :: cs =>
    match splitOnChar sep cs, decide (c = sep) with
    | rest, true => [] :: rest
    | [], false => [[c]]
    | r :: rs, false => (c :: r) :: rs

/-- JS `Number` on the decimal segments the cutoff helper splits `HH:MM`
into: `Number "" = 0`, digits accumulate, and a non-digit segment is
`NaN`, modelled as `none` (any JS comparison with `NaN` is false). -/
def jsNumber (cs : List Char) : Option Nat :=
  cs.foldl (fun acc c =>
    match acc, decide (c.isDigit = true) with
    | some a, true => some (a * 10 + (c.toNat - 48))
    | _, _ => none) (some 0)

/-- Minutes since midnight computed as in `isSlotPastCutoff`:
`split(':')`, `Number` each part, `hour * 60 + minute`; `none` when a
part is `NaN` or the minute part is missing (destructuring a short
array yields `undefined`, hence `NaN` minutes). -/
def clockMinutes (t : String) : Option Nat :=
  match splitOnChar ':' t.toList with
  | h :: m :: _ =>
    match jsNumber h, jsNumber m with
    | some hh, some mm => some (hh * 60 + mm)
    | _, _ => none
  | _ => none

/-- `isSlotPastCutoff` of the checkout extension: the slot end in
minutes is strictly greater than the cutoff in minutes. -/
def isSlotPastCutoff (slotEndTime cutoffTime : String) : Bool :=
  match clockMinutes slotEndTime, clockMinutes cutoffTime with
  | some slotMinutes, some cutoffMinutes => decide (cutoffMinutes < slotMinutes)
  | _, _ => false

/-! ## Shared lemmas -/

/-- The UTC day window `[start, start + 1 day)` of `getSlotBookingsForDate`
contains exactly the instants of the same UTC calendar day. -/
theorem utc_window_iff (x d : DateTime) :
    (d.startOfUTCDay.leB x = true ∧ x.ltB d.nextUTCDayStart = true) ↔
      sameCalendarDay x d := by
  obtain ⟨xy, xm, xd, xmin⟩ := x
  obtain ⟨dy, dm, dd, dmin⟩ := d
  simp only [DateTime.leB, DateTime.ltB, DateTime.startOfUTCDay,
    DateTime.nextUTCDayStart, sameCalendarDay]
  split_ifs <;> simp_all <;> omega

/-- The local-day window `[setHours(0,0,0,0), setHours(23,59,59,999)]` of
`isDateBlackedOut` contains exactly the same-calendar-day instants whose
minute is in range. -/
theorem local_window_iff (b d : DateTime) :
    (d.startOfDay.leB b = true ∧ b.leB d.endOfDay = true) ↔
      (sameCalendarDay b d ∧ b.minute ≤ 1439) := by
  obtain ⟨by_, bm, bd, bmin⟩ := b
  obtain ⟨dy, dm, dd, dmin⟩ := d
  simp only [DateTime.leB, DateTime.startOfDay, DateTime.endOfDay,
    sameCalendarDay]
  split_ifs <;> simp_all <;> omega

/-- Specification-side booking count (the claims' wording): orders of the
slot, on the same UTC calendar day as the requested date, not
`CANCELLED`. -/
def specBookedCount (db : Db) (slotId : String) (date : DateTime) : Nat :=
  db.orders.countP (fun o => decide (
    o.deliverySlotId = slotId ∧ sameCalendarDay o.deliveryDate date ∧
    o.status ≠ OrderStatus.CANCELLED))

/-- When `order.count` does not throw, the code's booking count is the
specification-side count. -/
theorem bookings_eq_spec (db : Db) (slotId : String) (date : DateTime)
    (hq : db.failOrderCount = false) :
    getSlotBookingsForDate db slotId date = specBookedCount db slotId date := by
  unfold getSlotBookingsForDate specBookedCount
  rw [hq]
  simp only [Bool.false_eq_true, if_false]
  refine List.countP_congr (fun o _ => ?_)
  simp only [decide_eq_true_eq]
  constructor
  · rintro ⟨h1, h2, h3⟩
    exact ⟨h1, (utc_window_iff o.deliveryDate date).mp h3, h2⟩
  · rintro ⟨h1, h2, h3⟩
    exact ⟨h1, h3, (utc_window_iff o.deliveryDate date).mpr h2⟩

/-! ## C7: checkout cutoff check -/

/-- C7: the checkout cutoff check is a pure time comparison: for `HH:MM`
strings whose parts parse to hours and minutes, `isSlotPastCutoff` is
true exactly when the slot end in minutes since midnight (hours times 60
plus minutes) is strictly greater than the cutoff in minutes; a slot
ending exactly at the cutoff is not past the cutoff. -/
theorem spec_C7_cutoff_pure (s c : String) (sh sm ch cm : List Char)
    (srest crest : List (List Char)) (a b x y : Nat)
    (hs : splitOnChar ':' s.toList = sh :: sm :: srest)
    (hc : splitOnChar ':' c.toList = ch :: cm :: crest)
    (ha : jsNumber sh = some a) (hb : jsNumber sm = some b)
    (hx : jsNumber ch = some x) (hy : jsNumber cm = some y) :
    (isSlotPastCutoff s c = true ↔ x * 60 + y < a * 60 + b) ∧
    (a * 60 + b = x * 60 + y → isSlotPastCutoff s c = false) := by
  have h1 : clockMinutes s = some (a * 60 + b) := by
    unfold clockMinutes; rw [hs]; dsimp only; rw [ha, hb]
  have h2 : clockMinutes c = some (x * 60 + y) := by
    unfold clockMinutes; rw [hc]; dsimp only; rw [hx, hy]
  unfold isSlotPastCutoff
  rw [h1, h2]
  constructor
  · simp
  · intro h; simp [h]

/-- Witness for C7 at the boundary input `14:00` against cutoff `14:00`. -/
theorem spec_C7_witness :
    (isSlotPastCutoff "14:00" "14:00" = true ↔ 14 * 60 + 0 < 14 * 60 + 0) ∧
    (14 * 60 + 0 = 14 * 60 + 0 → isSlotPastCutoff "14:00" "14:00" = false) :=
  spec_C7_cutoff_pure "14:00" "14:00" "14".toList "00".toList "14".toList
    "00".toList [] [] 14 0 14 0 (by decide) (by decide) (by decide) (by decide)
    (by decide) (by decide)

/-! ## C9: availability checks fail open on query errors -/

/-- C9: when the underlying queries throw, `isDateBlackedOut` returns
`false` and `getSlotBookingsForDate` returns `0` instead of propagating
the error. -/
theorem spec_C9_fail_open (db : Db) (shopName slotId zoneId : String)
    (d : DateTime) (hb : db.failBlackoutQuery = true)
    (hc : db.failOrderCount = true) :
    isDateBlackedOut db shopName d zoneId = false ∧
    getSlotBookingsForDate db slotId d = 0 := by
  unfold isDateBlackedOut getSlotBookingsForDate
  rw [hb, hc]
  simp

/-- A sample date (2025-06-15 in 0-based months, midnight). -/
def sampleDate : DateTime :=
  { year := 2025, month := 5, day := 15, minute := 0 }

/-- Database for the C9 witness: the date is genuinely blacked out and
the slot genuinely booked, but both queries throw. -/
def c9Db : Db :=
  { slots := [{ id := "s1", shopName := "shop1", startTime := "09:00",
                endTime := "11:00", capacity := 1, currentOrders := 1,
                isActive := true, zoneId := "z1" }]
    zones := [{ id := "z1", shopName := "shop1", name := "DE",
                shippingRate := 5, isActive := true }]
    blackouts := [{ id := "b1", shopName := "shop1", date := sampleDate,
                    isRecurring := false, zoneId := none }]
    orders := [{ id := "o1", shopName := "shop1", shopifyOrderId := "1001",
                 customerEmail := "a@b.c", deliverySlotId := "s1",
                 deliveryDate := sampleDate, status := OrderStatus.CONFIRMED }]
    settings := []
    failBlackoutQuery := true
    failOrderCount := true
    failSettingsOp := false }

/-- Witness for C9 on a database whose queries throw. -/
theorem spec_C9_witness :
    isDateBlackedOut c9Db "shop1" sampleDate "z1" = false ∧
    getSlotBookingsForDate c9Db "s1" sampleDate = 0 :=
  spec_C9_fail_open c9Db "shop1" "s1" "z1" sampleDate rfl rfl

/-! ## C10: releaseSlot preserves non-negativity of currentOrders -/

/-- C10: `releaseSlot` decrements only rows with strictly positive
`currentOrders` and reports whether a row was updated, so non-negativity
of the counter is preserved, and on a slot whose rows all have
`currentOrders = 0` it returns `false` and leaves the database
unchanged. -/
theorem spec_C10_releaseSlot (db : Db) (slotId : String)
    (hnn : ∀ s ∈ db.slots, 0 ≤ s.currentOrders) :
    (∀ s ∈ (releaseSlot db slotId).2.slots, 0 ≤ s.currentOrders) ∧
    ((releaseSlot db slotId).1 = true ↔
      ∃ s ∈ db.slots, s.id = slotId ∧ 0 < s.currentOrders) ∧
    ((∀ s ∈ db.slots, s.id = slotId → s.currentOrders = 0) →
      (releaseSlot db slotId).1 = false ∧ (releaseSlot db slotId).2 = db) := by
  refine ⟨?_, ?_, ?_⟩
  · intro s hs
    simp only [releaseSlot, List.mem_map] at hs
    obtain ⟨t, ht, rfl⟩ := hs
    by_cases h : t.id = slotId ∧ 0 < t.currentOrders
    · simp only [if_pos h]
      omega
    · simp only [if_neg h]
      exact hnn t ht
  · simp only [releaseSlot, decide_eq_true_eq, List.countP_pos_iff,
      decide_eq_true_eq]
  · intro h0
    have hmap : db.slots.map (fun s =>
        if s.id = slotId ∧ 0 < s.currentOrders
        then { s with currentOrders := s.currentOrders - 1 } else s) = db.slots := by
      rw [List.map_congr_left (g := fun s => s) (fun s hs => ?_), List.map_id']
      have : ¬ (s.id = slotId ∧ 0 < s.currentOrders) := by
        rintro ⟨h1, h2⟩
        have := h0 s hs h1
        omega
      simp [this]
    have hcount : db.slots.countP
        (fun s => decide (s.id = slotId ∧ 0 < s.currentOrders)) = 0 := by
      rw [List.countP_eq_zero]
      intro s hs
      simp only [decide_eq_true_eq, not_and]
      intro h1
      have := h0 s hs h1
      omega
    refine ⟨?_, ?_⟩
    · show decide (0 < db.slots.countP
        (fun s => decide (s.id = slotId ∧ 0 < s.currentOrders))) = false
      rw [hcount]
      rfl
    · show ({ db with slots := db.slots.map (fun s =>
        if s.id = slotId ∧ 0 < s.currentOrders
        then { s with currentOrders := s.currentOrders - 1 } else s) } : Db) = db
      rw [hmap]

/-- Database for the C10 witness: one row of the slot id with a zero
counter, one unrelated row with a positive counter. -/
def c10Db : Db :=
  { slots := [{ id := "s1", shopName := "shop1", startTime := "09:00",
                endTime := "11:00", capacity := 5, currentOrders := 0,
                isActive := true, zoneId := "z1" },
              { id := "s2", shopName := "shop1", startTime := "12:00",
                endTime := "14:00", capacity := 5, currentOrders := 3,
                isActive := true, zoneId := "z1" }]
    zones := []
    blackouts := []
    orders := []
    settings := []
    failBlackoutQuery := false
    failOrderCount := false
    failSettingsOp := false }

/-- Witness for C10 on a slot whose counter is already zero. -/
theorem spec_C10_witness :
    (∀ s ∈ (releaseSlot c10Db "s1").2.slots, 0 ≤ s.currentOrders) ∧
    ((releaseSlot c10Db "s1").1 = true ↔
      ∃ s ∈ c10Db.slots, s.id = "s1" ∧ 0 < s.currentOrders) ∧
    ((∀ s ∈ c10Db.slots, s.id = "s1" → s.currentOrders = 0) →
      (releaseSlot c10Db "s1").1 = false ∧ (releaseSlot c10Db "s1").2 = c10Db) :=
  spec_C10_releaseSlot c10Db "s1" (by decide)

/-! ## C8: getShopSettings creates defaults on first access -/

/-- C8: when no settings row exists for the shop and the database does
not fail, `getShopSettings` creates and returns the default row
(`cutoffTime "14:00"`, `maxDaysInAdvance 30`, `enableSameDayDelivery
false`), a repeated call returns the same defaults without further
change, and `null` is returned only when an operation fails. -/
theorem spec_C8_settings_defaults (db : Db) (shopName : String)
    (hop : db.failSettingsOp = false)
    (hnone : db.settings.find? (fun s => decide (s.shopName = shopName)) = none) :
    (getShopSettings db shopName).1 = some (defaultShopSettings shopName) ∧
    (getShopSettings (getShopSettings db shopName).2 shopName).1
      = some (defaultShopSettings shopName) ∧
    (getShopSettings (getShopSettings db shopName).2 shopName).2
      = (getShopSettings db shopName).2 ∧
    (defaultShopSettings shopName).cutoffTime = "14:00" ∧
    (defaultShopSettings shopName).maxDaysInAdvance = 30 ∧
    (defaultShopSettings shopName).enableSameDayDelivery = false ∧
    (∀ db2 : Db, db2.failSettingsOp = false →
      ((getShopSettings db2 shopName).1).isSome = true) := by
  have hfirst : getShopSettings db shopName =
      (some (defaultShopSettings shopName),
       { db with settings := db.settings ++ [defaultShopSettings shopName] }) := by
    unfold getShopSettings
    rw [hop, hnone]
    simp
  have hfind2 : (db.settings ++ [defaultShopSettings shopName]).find?
      (fun s => decide (s.shopName = shopName)) =
        some (defaultShopSettings shopName) := by
    rw [List.find?_append, hnone]
    simp [defaultShopSettings]
  have hsecond : getShopSettings
      { db with settings := db.settings ++ [defaultShopSettings shopName] } shopName =
      (some (defaultShopSettings shopName),
       { db with settings := db.settings ++ [defaultShopSettings shopName] }) := by
    unfold getShopSettings
    rw [show ({ db with settings := db.settings ++ [defaultShopSettings shopName] } :
      Db).failSettingsOp = false from hop]
    dsimp only
    rw [hfind2]
    rfl
  refine ⟨by rw [hfirst], ?_, ?_, rfl, rfl, rfl, ?_⟩
  · simp only [hfirst, hsecond]
  · simp only [hfirst, hsecond]
  · intro db2 h2
    unfold getShopSettings
    rw [h2]
    simp only [Bool.false_eq_true, if_false]
    cases db2.settings.find? (fun s => decide (s.shopName = shopName)) <;> simp

/-- Database for the C8 witness: no settings row for the shop. -/
def c8Db : Db :=
  { slots := [], zones := [], blackouts := [], orders := []
    settings := [{ shopName := "other-shop", cutoffTime := "10:00",
                   maxDaysInAdvance := 7, enableSameDayDelivery := true }]
    failBlackoutQuery := false
    failOrderCount := false
    failSettingsOp := false }

/-- Witness for C8 on a shop with no settings row. -/
theorem spec_C8_witness :
    (getShopSettings c8Db "shop1").1 = some (defaultShopSettings "shop1") ∧
    (getShopSettings (getShopSettings c8Db "shop1").2 "shop1").1
      = some (defaultShopSettings "shop1") ∧
    (getShopSettings (getShopSettings c8Db "shop1").2 "shop1").2
      = (getShopSettings c8Db "shop1").2 ∧
    (defaultShopSettings "shop1").cutoffTime = "14:00" ∧
    (defaultShopSettings "shop1").maxDaysInAdvance = 30 ∧
    (defaultShopSettings "shop1").enableSameDayDelivery = false ∧
    (∀ db2 : Db, db2.failSettingsOp = false →
      ((getShopSettings db2 "shop1").1).isSome = true) :=
  spec_C8_settings_defaults c8Db "shop1" rfl (by decide)

/-! ## C6: delivery zones are keyed by country code -/

/-- C6: `getZoneByCountryCode` returns a zone exactly when the shop has
an active zone named like the country code, and when it returns `null`
the zones endpoint answers 404 with the fixed error message. -/
theorem spec_C6_zone_by_country (db : Db) (shopName countryCode : String)
    (hshop : shopName ≠ "") (hcc : countryCode ≠ "") :
    ((getZoneByCountryCode db shopName countryCode).isSome = true ↔
      ∃ z ∈ db.zones, z.shopName = shopName ∧ z.name = countryCode ∧
        z.isActive = true) ∧
    (∀ z, getZoneByCountryCode db shopName countryCode = some z →
      z ∈ db.zones ∧ z.shopName = shopName ∧ z.name = countryCode ∧
        z.isActive = true) ∧
    (getZoneByCountryCode db shopName countryCode = none →
      zonesLoader db (some countryCode) (some shopName) =
        ZonesResponse.notFound "No delivery zone found for this country") := by
  refine ⟨?_, ?_, ?_⟩
  · unfold getZoneByCountryCode
    rw [List.find?_isSome]
    simp
  · intro z hz
    unfold getZoneByCountryCode at hz
    have hmem := List.mem_of_find?_eq_some hz
    have hprop := List.find?_some hz
    simp only [decide_eq_true_eq] at hprop
    exact ⟨hmem, hprop⟩
  · intro hnone
    have h1 : paramBlank (some countryCode) = false := by
      simp [paramBlank, hcc]
    have h2 : paramBlank (some shopName) = false := by
      simp [paramBlank, hshop]
    unfold zonesLoader
    rw [h1, h2]
    show (match getZoneByCountryCode db shopName countryCode with
      | none => ZonesResponse.notFound "No delivery zone found for this country"
      | some zone => ZonesResponse.ok zone.id zone.name zone.shippingRate) =
      ZonesResponse.notFound "No delivery zone found for this country"
    rw [hnone]

/-- Database for the C6 witness: no active zone named `FR` (the `FR`
zone is inactive, the active zone is named `DE`). -/
def c6Db : Db :=
  { slots := [], blackouts := [], orders := [], settings := []
    zones := [{ id := "z1", shopName := "shop1", name := "DE",
                shippingRate := 5, isActive := true },
              { id := "z2", shopName := "shop1", name := "FR",
                shippingRate := 7, isActive := false }]
    failBlackoutQuery := false
    failOrderCount := false
    failSettingsOp := false }

/-- Witness for C6 on a shop without an active `FR` zone. -/
theorem spec_C6_witness :
    ((getZoneByCountryCode c6Db "shop1" "FR").isSome = true ↔
      ∃ z ∈ c6Db.zones, z.shopName = "shop1" ∧ z.name = "FR" ∧
        z.isActive = true) ∧
    (∀ z, getZoneByCountryCode c6Db "shop1" "FR" = some z →
      z ∈ c6Db.zones ∧ z.shopName = "shop1" ∧ z.name = "FR" ∧
        z.isActive = true) ∧
    (getZoneByCountryCode c6Db "shop1" "FR" = none →
      zonesLoader c6Db (some "FR") (some "shop1") =
        ZonesResponse.notFound "No delivery zone found for this country") :=
  spec_C6_zone_by_country c6Db "shop1" "FR" (by decide) (by decide)

/-! ## C2: cancelled orders are excluded from booking counts -/

/-- Updating the unique row that `hit` matches, when the update turns a
row counted by `q` into one that is not, decreases the `q`-count by
exactly one. -/
theorem countP_map_update_of_mem {α : Type} (f : α → α) (q hit : α → Bool)
    (l : List α) (o : α) (ho : o ∈ l) (hhito : hit o = true)
    (h1 : l.countP hit = 1)
    (hmiss : ∀ a, hit a = false → f a = a)
    (hqo : q o = true) (hqfo : q (f o) = false) :
    (l.map f).countP q + 1 = l.countP q := by
  obtain ⟨l1, l2, rfl⟩ := List.append_of_mem ho
  rw [List.countP_append, List.countP_cons, hhito] at h1
  have hl1 : l1.countP hit = 0 := by simp at h1; omega
  have hl2 : l2.countP hit = 0 := by simp at h1; omega
  have hid : ∀ m : List α, m.countP hit = 0 → m.map f = m := by
    intro m hm
    have hall := List.countP_eq_zero.mp hm
    rw [List.map_congr_left (g := fun x => x) ?_, List.map_id']
    intro x hx
    exact hmiss x (by simpa using hall x hx)
  rw [List.map_append, List.map_cons, hid l1 hl1, hid l2 hl2,
    List.countP_append, List.countP_append, List.countP_cons, List.countP_cons,
    hqo, hqfo]
  simp only [Bool.false_eq_true, if_false, if_pos trivial]
  omega

/-- C2: when `order.count` does not throw, the booking count of a slot
for a date is the number of its orders on that UTC calendar day whose
status is not `CANCELLED`; marking such a counted order `CANCELLED`
(via `releaseDeliverySlot`) decreases the count by one and therefore
increases the available capacity by one. -/
theorem spec_C2_bookings (db : Db) (slotId orderId : String) (d : DateTime)
    (hq : db.failOrderCount = false)
    (o : Order) (ho : o ∈ db.orders)
    (hoid : o.shopifyOrderId = orderId)
    (huniq : db.orders.countP (fun x => decide (x.shopifyOrderId = orderId)) = 1)
    (hslot : o.deliverySlotId = slotId)
    (hstat : o.status ≠ OrderStatus.CANCELLED)
    (hday : sameCalendarDay o.deliveryDate d) :
    getSlotBookingsForDate db slotId d = specBookedCount db slotId d ∧
    (releaseDeliverySlot db orderId).1 = true ∧
    getSlotBookingsForDate (releaseDeliverySlot db orderId).2 slotId d + 1
      = getSlotBookingsForDate db slotId d ∧
    (∀ capacity : Int,
      capacity - (getSlotBookingsForDate (releaseDeliverySlot db orderId).2 slotId d : Int)
        = capacity - (getSlotBookingsForDate db slotId d : Int) + 1) := by
  have hsome : (db.orders.find? (fun x => decide (x.shopifyOrderId = orderId))).isSome := by
    rw [List.find?_isSome]
    exact ⟨o, ho, by simp [hoid]⟩
  obtain ⟨o0, hfind⟩ := Option.isSome_iff_exists.mp hsome
  have hrel : releaseDeliverySlot db orderId =
      (true, { db with orders := db.orders.map (fun x =>
        if x.shopifyOrderId = orderId
        then { x with status := OrderStatus.CANCELLED } else x) }) := by
    unfold releaseDeliverySlot
    rw [hfind]
  have hdec : getSlotBookingsForDate (releaseDeliverySlot db orderId).2 slotId d + 1
      = getSlotBookingsForDate db slotId d := by
    rw [hrel]
    unfold getSlotBookingsForDate
    dsimp only
    rw [hq]
    simp only [Bool.false_eq_true, if_false]
    refine countP_map_update_of_mem _ _
      (fun x => decide (x.shopifyOrderId = orderId)) db.orders o ho
      (by simp [hoid]) huniq (fun a ha => ?_) ?_ ?_
    · have : ¬ a.shopifyOrderId = orderId := by simpa using ha
      rw [if_neg this]
    · refine decide_eq_true ?_
      exact ⟨hslot, hstat, (utc_window_iff o.deliveryDate d).mpr hday⟩
    · rw [if_pos hoid]
      refine decide_eq_false ?_
      rintro ⟨-, hbad, -⟩
      exact hbad rfl
  refine ⟨bookings_eq_spec db slotId d hq, by rw [hrel], hdec, fun capacity => ?_⟩
  omega

/-- Database for the C2 witness: slot `s1` has one confirmed and one
already-cancelled order on the sample date. -/
def c2Db : Db :=
  { slots := [{ id := "s1", shopName := "shop1", startTime := "09:00",
                endTime := "11:00", capacity := 5, currentOrders := 1,
                isActive := true, zoneId := "z1" }]
    zones := []
    blackouts := []
    orders := [{ id := "o1", shopName := "shop1", shopifyOrderId := "1001",
                 customerEmail := "a@b.c", deliverySlotId := "s1",
                 deliveryDate := sampleDate, status := OrderStatus.CONFIRMED },
               { id := "o2", shopName := "shop1", shopifyOrderId := "1002",
                 customerEmail := "d@e.f", deliverySlotId := "s1",
                 deliveryDate := sampleDate, status := OrderStatus.CANCELLED }]
    settings := []
    failBlackoutQuery := false
    failOrderCount := false
    failSettingsOp := false }

/-- The confirmed order of the C2 witness database. -/
def c2Order : Order :=
  { id := "o1", shopName := "shop1", shopifyOrderId := "1001",
    customerEmail := "a@b.c", deliverySlotId := "s1",
    deliveryDate := sampleDate, status := OrderStatus.CONFIRMED }

/-- Witness for C2: cancelling the confirmed order of `s1` drops the
booking count from 1 to 0 and raises available capacity by one. -/
theorem spec_C2_witness :
    getSlotBookingsForDate c2Db "s1" sampleDate = specBookedCount c2Db "s1" sampleDate ∧
    (releaseDeliverySlot c2Db "1001").1 = true ∧
    getSlotBookingsForDate (releaseDeliverySlot c2Db "1001").2 "s1" sampleDate + 1
      = getSlotBookingsForDate c2Db "s1" sampleDate ∧
    (∀ capacity : Int,
      capacity - (getSlotBookingsForDate (releaseDeliverySlot c2Db "1001").2 "s1" sampleDate : Int)
        = capacity - (getSlotBookingsForDate c2Db "s1" sampleDate : Int) + 1) :=
  spec_C2_bookings c2Db "s1" "1001" sampleDate rfl c2Order (by decide)
    (by decide) (by decide) (by decide) (by decide) (by decide)

/-! ## C1: slot creation rejects overlapping ranges

The claim as stated is falsified when the zone of the request is
inactive: the zone check runs first, so even with an overlapping active
slot present the error is the zone error, not the overlap error.  The
amended claim adds the active-zone premise to the overlap branch. -/

/-- Database for the C1 counterexample: zone `z1` has been deactivated
but still holds an active slot overlapping the request. -/
def c1Db : Db :=
  { slots := [{ id := "s1", shopName := "shop1", startTime := "09:00",
                endTime := "11:00", capacity := 5, currentOrders := 0,
                isActive := true, zoneId := "z1" }]
    zones := [{ id := "z1", shopName := "shop1", name := "DE",
                shippingRate := 5, isActive := false }]
    blackouts := []
    orders := []
    settings := []
    failBlackoutQuery := false
    failOrderCount := false
    failSettingsOp := false }

/-- The C1 counterexample request: overlaps slot `s1` of zone `z1`. -/
def c1Data : CreateSlotData :=
  { shopName := "shop1", startTime := "10:00", endTime := "12:00",
    capacity := 3, zoneId := "z1" }

/-- Counterexample to C1 as stated: the shop and zone contain an active
overlapping slot, yet `createDeliverySlot` does not throw the overlap
error (the inactive zone is rejected first). -/
theorem spec_C1_counterexample :
    (∃ s ∈ c1Db.slots, s.shopName = c1Data.shopName ∧
      s.zoneId = c1Data.zoneId ∧ s.isActive = true ∧ slotOverlaps s c1Data) ∧
    createDeliverySlot c1Db "new1" c1Data =
      Except.error "Invalid delivery zone for this shop" ∧
    createDeliverySlot c1Db "new1" c1Data ≠
      Except.error "Time slot overlaps with existing slot" := by
  refine ⟨by decide, rfl, ?_⟩
  intro h
  rw [show createDeliverySlot c1Db "new1" c1Data =
    Except.error "Invalid delivery zone for this shop" from rfl] at h
  exact absurd (Except.error.inj h) (by decide)

/-- C1 (amended): provided the requested zone is an active zone of the
shop, `createDeliverySlot` throws the overlap error exactly when an
active slot of the same shop and zone overlaps the requested range, and
otherwise creates the slot with `currentOrders 0` and `isActive true`,
touching no other table. -/
theorem spec_C1_create_slot (db : Db) (newId : String) (data : CreateSlotData)
    (hzone : ∃ z ∈ db.zones, z.id = data.zoneId ∧ z.shopName = data.shopName ∧
      z.isActive = true) :
    ((∃ s ∈ db.slots, s.shopName = data.shopName ∧ s.zoneId = data.zoneId ∧
        s.isActive = true ∧ slotOverlaps s data) →
      createDeliverySlot db newId data =
        Except.error "Time slot overlaps with existing slot") ∧
    ((¬ ∃ s ∈ db.slots, s.shopName = data.shopName ∧ s.zoneId = data.zoneId ∧
        s.isActive = true ∧ slotOverlaps s data) →
      createDeliverySlot db newId data =
        Except.ok (createdSlot newId data,
          { db with slots := db.slots ++ [createdSlot newId data] }) ∧
      (createdSlot newId data).currentOrders = 0 ∧
      (createdSlot newId data).isActive = true ∧
      (createdSlot newId data).shopName = data.shopName ∧
      (createdSlot newId data).zoneId = data.zoneId ∧
      (createdSlot newId data).startTime = data.startTime ∧
      (createdSlot newId data).endTime = data.endTime) := by
  have hsome : (db.zones.find? (fun z => decide (
      z.id = data.zoneId ∧ z.shopName = data.shopName ∧ z.isActive = true))).isSome := by
    rw [List.find?_isSome]
    obtain ⟨z, hz, h1, h2, h3⟩ := hzone
    exact ⟨z, hz, by simp [h1, h2, h3]⟩
  obtain ⟨z0, hfind⟩ := Option.isSome_iff_exists.mp hsome
  constructor
  · intro hex
    have hlen : (db.slots.filter (fun s => decide (
        s.shopName = data.shopName ∧ s.zoneId = data.zoneId ∧
        s.isActive = true ∧ slotOverlaps s data))).length > 0 := by
      obtain ⟨s, hs, hprops⟩ := hex
      have hmem : s ∈ db.slots.filter (fun s => decide (
          s.shopName = data.shopName ∧ s.zoneId = data.zoneId ∧
          s.isActive = true ∧ slotOverlaps s data)) := by
        rw [List.mem_filter]
        exact ⟨hs, by simp [hprops.1, hprops.2.1, hprops.2.2.1, hprops.2.2.2]⟩
      exact List.length_pos.mpr (List.ne_nil_of_mem hmem)
    unfold createDeliverySlot
    rw [hfind]
    dsimp only
    rw [if_pos hlen]
  · intro hnone
    have hnil : db.slots.filter (fun s => decide (
        s.shopName = data.shopName ∧ s.zoneId = data.zoneId ∧
        s.isActive = true ∧ slotOverlaps s data)) = [] := by
      rw [List.filter_eq_nil_iff]
      intro s hs hbad
      simp only [decide_eq_true_eq] at hbad
      exact hnone ⟨s, hs, hbad⟩
    have hlen : ¬ ((db.slots.filter (fun s => decide (
        s.shopName = data.shopName ∧ s.zoneId = data.zoneId ∧
        s.isActive = true ∧ slotOverlaps s data))).length > 0) := by
      rw [hnil]
      simp
    refine ⟨?_, rfl, rfl, rfl, rfl, rfl, rfl⟩
    unfold createDeliverySlot
    rw [hfind]
    dsimp only
    rw [if_neg hlen]

/-- Database for the C1 witness: an active zone with one active slot at
09:00-11:00. -/
def c1GoodDb : Db :=
  { slots := [{ id := "s1", shopName := "shop1", startTime := "09:00",
                endTime := "11:00", capacity := 5, currentOrders := 0,
                isActive := true, zoneId := "z1" }]
    zones := [{ id := "z1", shopName := "shop1", name := "DE",
                shippingRate := 5, isActive := true }]
    blackouts := []
    orders := []
    settings := []
    failBlackoutQuery := false
    failOrderCount := false
    failSettingsOp := false }

/-- The C1 witness request: 11:00-13:00, which does not overlap. -/
def c1GoodData : CreateSlotData :=
  { shopName := "shop1", startTime := "11:00", endTime := "13:00",
    capacity := 3, zoneId := "z1" }

/-- Witness for the amended C1 on an active zone. -/
theorem spec_C1_witness :
    ((∃ s ∈ c1GoodDb.slots, s.shopName = c1GoodData.shopName ∧
        s.zoneId = c1GoodData.zoneId ∧ s.isActive = true ∧
        slotOverlaps s c1GoodData) →
      createDeliverySlot c1GoodDb "new1" c1GoodData =
        Except.error "Time slot overlaps with existing slot") ∧
    ((¬ ∃ s ∈ c1GoodDb.slots, s.shopName = c1GoodData.shopName ∧
        s.zoneId = c1GoodData.zoneId ∧ s.isActive = true ∧
        slotOverlaps s c1GoodData) →
      createDeliverySlot c1GoodDb "new1" c1GoodData =
        Except.ok (createdSlot "new1" c1GoodData,
          { c1GoodDb with
            slots := c1GoodDb.slots ++ [createdSlot "new1" c1GoodData] }) ∧
      (createdSlot "new1" c1GoodData).currentOrders = 0 ∧
      (createdSlot "new1" c1GoodData).isActive = true ∧
      (createdSlot "new1" c1GoodData).shopName = c1GoodData.shopName ∧
      (createdSlot "new1" c1GoodData).zoneId = c1GoodData.zoneId ∧
      (createdSlot "new1" c1GoodData).startTime = c1GoodData.startTime ∧
      (createdSlot "new1" c1GoodData).endTime = c1GoodData.endTime) :=
  spec_C1_create_slot c1GoodDb "new1" c1GoodData
    ⟨{ id := "z1", shopName := "shop1", name := "DE",
       shippingRate := 5, isActive := true }, by decide, by decide⟩

/-! ## C3: blackout dates suppress availability

The recurring branch of `isDateBlackedOut` inspects only the FIRST
recurring blackout row `findFirst` returns and ignores every other one,
so with two shop-wide recurring blackouts the one stored second never
blacks anything out.  This contradicts the code's own intent ("Check if
a specific date is blacked out", spec: "a date (single or recurring) on
which no deliveries are scheduled"): the claim is right and the code has
a bug. -/

/-- The date 2025-12-25 (0-based month 11). -/
def c3Date : DateTime :=
  { year := 2025, month := 11, day := 25, minute := 0 }

/-- Database exhibiting the C3 bug: two shop-wide recurring blackouts;
the first (Jan 1) does not match 2025-12-25, the second (Dec 25,
stored in 2020) does, but `findFirst` only ever sees the first. -/
def c3Db : Db :=
  { slots := [{ id := "s1", shopName := "shop1", startTime := "09:00",
                endTime := "11:00", capacity := 5, currentOrders := 0,
                isActive := true, zoneId := "z1" }]
    zones := [{ id := "z1", shopName := "shop1", name := "DE",
                shippingRate := 5, isActive := true }]
    blackouts := [{ id := "b1", shopName := "shop1",
                    date := { year := 2025, month := 0, day := 1, minute := 0 },
                    isRecurring := true, zoneId := none },
                  { id := "b2", shopName := "shop1",
                    date := { year := 2020, month := 11, day := 25, minute := 0 },
                    isRecurring := true, zoneId := none }]
    orders := []
    settings := []
    failBlackoutQuery := false
    failOrderCount := false
    failSettingsOp := false }

/-- C3 failing input evaluated: a shop-wide recurring blackout matches
2025-12-25 by month and day, yet the date is not reported blacked out,
`getAvailableSlots` still offers slots and `isSlotAvailableForDate` still
answers true. -/
theorem spec_C3_blackout_bug :
    (∃ b ∈ c3Db.blackouts, b.shopName = "shop1" ∧ b.isRecurring = true ∧
      zoneClauseMatches b.zoneId "z1" ∧ b.date.month = c3Date.month ∧
      b.date.day = c3Date.day) ∧
    isDateBlackedOut c3Db "shop1" c3Date "z1" = false ∧
    getAvailableSlots c3Db "shop1" c3Date "z1" ≠ [] ∧
    isSlotAvailableForDate c3Db "s1" c3Date = true := by
  decide

/-! ## C5: order-creation webhook transaction -/

/-- C5: the order-creation transaction errors (and hence rolls back,
creating no order row) when the selected slot is missing, inactive or
unavailable for the requested date, and otherwise commits exactly the
appended `CONFIRMED` order row carrying the requested delivery date. -/
theorem spec_C5_order_tx (db : Db)
    (shopName oid email slotId newId : String) (d : DateTime) :
    (db.slots.find? (fun s => decide (s.id = slotId)) = none →
      handleOrderCreatedTx db shopName oid email slotId d newId =
        Except.error "Delivery slot not found") ∧
    (∀ slot, db.slots.find? (fun s => decide (s.id = slotId)) = some slot →
      slot.isActive = false →
      handleOrderCreatedTx db shopName oid email slotId d newId =
        Except.error "Selected delivery slot is no longer active") ∧
    (∀ slot, db.slots.find? (fun s => decide (s.id = slotId)) = some slot →
      slot.isActive = true → isSlotAvailableForDate db slotId d = false →
      handleOrderCreatedTx db shopName oid email slotId d newId =
        Except.error "Selected delivery slot is not available for the requested date") ∧
    (∀ slot, db.slots.find? (fun s => decide (s.id = slotId)) = some slot →
      slot.isActive = true → isSlotAvailableForDate db slotId d = true →
      handleOrderCreatedTx db shopName oid email slotId d newId =
        Except.ok { db with orders := db.orders ++
          [confirmedOrder newId shopName oid email slotId d] } ∧
      (confirmedOrder newId shopName oid email slotId d).status
        = OrderStatus.CONFIRMED ∧
      (confirmedOrder newId shopName oid email slotId d).deliveryDate = d) := by
  refine ⟨?_, ?_, ?_, ?_⟩
  · intro hnone
    unfold handleOrderCreatedTx
    rw [hnone]
  · intro slot hfind hact
    unfold handleOrderCreatedTx
    rw [hfind]
    dsimp only
    rw [if_pos hact]
  · intro slot hfind hact hav
    unfold handleOrderCreatedTx
    rw [hfind]
    dsimp only
    rw [if_neg (by simp [hact]), if_pos hav]
  · intro slot hfind hact hav
    refine ⟨?_, rfl, rfl⟩
    unfold handleOrderCreatedTx
    rw [hfind]
    dsimp only
    rw [if_neg (by simp [hact]), if_neg (by simp [hav])]

/-- Database for the C5 witness: an active slot with free capacity on a
non-blacked-out date. -/
def c5Db : Db :=
  { slots := [{ id := "s1", shopName := "shop1", startTime := "09:00",
                endTime := "11:00", capacity := 2, currentOrders := 1,
                isActive := true, zoneId := "z1" }]
    zones := [{ id := "z1", shopName := "shop1", name := "DE",
                shippingRate := 5, isActive := true }]
    blackouts := []
    orders := [{ id := "o0", shopName := "shop1", shopifyOrderId := "1000",
                 customerEmail := "x@y.z", deliverySlotId := "s1",
                 deliveryDate := sampleDate, status := OrderStatus.CONFIRMED }]
    settings := []
    failBlackoutQuery := false
    failOrderCount := false
    failSettingsOp := false }

/-- Witness for C5: all checks pass, the transaction commits exactly the
appended confirmed order. -/
theorem spec_C5_witness :
    handleOrderCreatedTx c5Db "shop1" "1001" "a@b.c" "s1" sampleDate "o1" =
      Except.ok { c5Db with orders := c5Db.orders ++
        [confirmedOrder "o1" "shop1" "1001" "a@b.c" "s1" sampleDate] } ∧
    (confirmedOrder "o1" "shop1" "1001" "a@b.c" "s1" sampleDate).status
      = OrderStatus.CONFIRMED ∧
    (confirmedOrder "o1" "shop1" "1001" "a@b.c" "s1" sampleDate).deliveryDate
      = sampleDate :=
  (spec_C5_order_tx c5Db "shop1" "1001" "a@b.c" "s1" "o1" sampleDate).2.2.2
    { id := "s1", shopName := "shop1", startTime := "09:00",
      endTime := "11:00", capacity := 2, currentOrders := 1,
      isActive := true, zoneId := "z1" }
    (by decide) rfl (by decide)

/-! ## C4: getAvailableSlots on a non-blacked-out date -/

/-- C4: on a non-blacked-out date (and with the count query healthy),
`getAvailableSlots` is sorted by `startTime` and contains exactly the
active slots of the shop and zone with spare capacity for the date,
each annotated with the booking count and the remaining capacity. -/
theorem spec_C4_available_slots (db : Db) (shopName zoneId : String)
    (d : DateTime)
    (hb : isDateBlackedOut db shopName d zoneId = false)
    (hq : db.failOrderCount = false) :
    List.Pairwise
      (fun a b : SlotWithBookings => timeLE a.slot.startTime b.slot.startTime)
      (getAvailableSlots db shopName d zoneId) ∧
    (∀ e : SlotWithBookings, e ∈ getAvailableSlots db shopName d zoneId ↔
      ∃ s ∈ db.slots, s.shopName = shopName ∧ s.zoneId = zoneId ∧
        s.isActive = true ∧
        0 < s.capacity - (specBookedCount db s.id d : Int) ∧
        e = { slot := s
              currentBookings := specBookedCount db s.id d
              availableCapacity :=
                s.capacity - (specBookedCount db s.id d : Int) }) := by
  have hres : getAvailableSlots db shopName d zoneId =
      ((List.insertionSort slotStartLE
          (db.slots.filter (fun s => decide (
            s.shopName = shopName ∧ s.zoneId = zoneId ∧ s.isActive = true)))).map
        (annotateSlot db d)).filter
        (fun s => decide (0 < s.availableCapacity)) := by
    unfold getAvailableSlots
    rw [hb]
    simp only [Bool.false_eq_true, if_false]
  have hann : ∀ s : DeliverySlot, annotateSlot db d s =
      { slot := s
        currentBookings := specBookedCount db s.id d
        availableCapacity := s.capacity - (specBookedCount db s.id d : Int) } := by
    intro s
    unfold annotateSlot
    rw [bookings_eq_spec db s.id d hq]
  constructor
  · rw [hres]
    have hsorted : List.Pairwise slotStartLE
        (List.insertionSort slotStartLE
          (db.slots.filter (fun s => decide (
            s.shopName = shopName ∧ s.zoneId = zoneId ∧ s.isActive = true)))) :=
      List.sorted_insertionSort slotStartLE _
    have hmap : List.Pairwise
        (fun a b : SlotWithBookings => timeLE a.slot.startTime b.slot.startTime)
        ((List.insertionSort slotStartLE
          (db.slots.filter (fun s => decide (
            s.shopName = shopName ∧ s.zoneId = zoneId ∧ s.isActive = true)))).map
          (annotateSlot db d)) :=
      hsorted.map (annotateSlot db d) (fun a b hab => hab)
    exact hmap.sublist (List.filter_sublist _)
  · intro e
    rw [hres]
    simp only [List.mem_filter, List.mem_map, List.mem_insertionSort,
      List.mem_filter, decide_eq_true_eq]
    constructor
    · rintro ⟨⟨s, ⟨hs, h1, h2, h3⟩, rfl⟩, hpos⟩
      rw [hann s] at hpos ⊢
      exact ⟨s, hs, h1, h2, h3, hpos, rfl⟩
    · rintro ⟨s, hs, h1, h2, h3, hpos, rfl⟩
      exact ⟨⟨s, ⟨hs, h1, h2, h3⟩, hann s⟩, hpos⟩

/-- Database for the C4 witness: two active slots (one full, one free),
an inactive slot and a slot of another zone. -/
def c4Db : Db :=
  { slots := [{ id := "s1", shopName := "shop1", startTime := "12:00",
                endTime := "14:00", capacity := 1, currentOrders := 1,
                isActive := true, zoneId := "z1" },
              { id := "s2", shopName := "shop1", startTime := "09:00",
                endTime := "11:00", capacity := 3, currentOrders := 0,
                isActive := true, zoneId := "z1" },
              { id := "s3", shopName := "shop1", startTime := "15:00",
                endTime := "17:00", capacity := 3, currentOrders := 0,
                isActive := false, zoneId := "z1" },
              { id := "s4", shopName := "shop1", startTime := "08:00",
                endTime := "10:00", capacity := 3, currentOrders := 0,
                isActive := true, zoneId := "z2" }]
    zones := [{ id := "z1", shopName := "shop1", name := "DE",
                shippingRate := 5, isActive := true }]
    blackouts := []
    orders := [{ id := "o1", shopName := "shop1", shopifyOrderId := "1001",
                 customerEmail := "a@b.c", deliverySlotId := "s1",
                 deliveryDate := sampleDate, status := OrderStatus.CONFIRMED }]
    settings := []
    failBlackoutQuery := false
    failOrderCount := false
    failSettingsOp := false }

/-- Witness for C4 on a concrete database. -/
theorem spec_C4_witness :
    List.Pairwise
      (fun a b : SlotWithBookings => timeLE a.slot.startTime b.slot.startTime)
      (getAvailableSlots c4Db "shop1" sampleDate "z1") ∧
    (∀ e : SlotWithBookings, e ∈ getAvailableSlots c4Db "shop1" sampleDate "z1" ↔
      ∃ s ∈ c4Db.slots, s.shopName = "shop1" ∧ s.zoneId = "z1" ∧
        s.isActive = true ∧
        0 < s.capacity - (specBookedCount c4Db s.id sampleDate : Int) ∧
        e = { slot := s
              currentBookings := specBookedCount c4Db s.id sampleDate
              availableCapacity :=
                s.capacity - (specBookedCount c4Db s.id sampleDate : Int) }) :=
  spec_C4_available_slots c4Db "shop1" "z1" sampleDate (by decide) rfl

end DynamicDelivery
